import Mathlib

/-!
Verification of the tiered-admission simulation engine of `exmschl.py`.

The script generates synthetic applicant pools, counts applicants clearing a
score cutoff per socio-economic tier, performs per-tier top-K admission
selection, and computes rejection rates for top-band applicants without bonus
points, aggregating over repeated trials.

Embedding conventions:
* Machine randomness (`np.random.choice`, `np.random.randint`) is abstracted
  into explicit streams of draw outcomes (`Streams`); a fresh stream per trial
  models the advancing global generator.  `np.random.randint(8, GPA_max+1)` is
  modelled as `8 + u % (GPA_max + 1 - 8)` for a stream value `u`, so that the
  uniform distribution of `u`'s residue induces the uniform distribution on
  the inclusive grade range.
* pandas DataFrames become `List Row`; a missing value (`NaN`) becomes `none`
  in an `Option`; pandas `groupby` over a column becomes the sorted list of
  keys present paired with their group aggregates.
* Floating-point scores are modelled as exact rationals.  For every raw score
  and scale arising here (`raw ∈ [8,12]`, scale 11 or 12) the two-decimal
  rounding of the float value and of the exact rational agree and no
  half-way ties occur, so `round` (ties irrelevant) is faithful.
-/

set_option maxRecDepth 8000

/-- The four sidebar inputs of the script (`num_stu`, `num_seats`,
`num_trials`, `GPA_scale`), read by every function through module-level
variables `n_students`, `total_seats`, `n_trials`, `GPA_max`. -/
structure Config where
  nStudents : ℕ
  totalSeats : ℕ
  nTrials : ℕ
  gpaMax : ℕ

/-- One trial's worth of random draw outcomes: `tier i` is the index drawn by
`np.random.choice(np.arange(1, 9), p=...)` for student `i` (an index into the
8 tiers), `bonusIdx i` the index drawn by `np.random.choice(a=[1,0],
p=[.8,.2])`, and `raw i` the underlying value whose residue realises
`np.random.randint(8, GPA_max + 1)`. -/
structure Streams where
  tier : ℕ → Fin 8
  bonusIdx : ℕ → Fin 2
  raw : ℕ → ℕ

/-- One row of the simulated DataFrame built by `make_data`:
columns `keys`, `tier`, `bonus`, `raw_score`, `scaled_score`, `final_score`. -/
structure Row where
  keys : ℕ
  tier : ℕ
  bonus : ℕ
  raw_score : ℕ
  scaled_score : ℚ
  final_score : ℚ
deriving DecidableEq

/-- Rounding to two decimal places (`round(x, 2)` / `Series.round(2)`).
Python and numpy round floats half-to-even; for every value this development
evaluates, the exact rational is never at a two-decimal half-way point, so
rounding ties never arise and half-up `round` agrees. -/
def round2 (q : ℚ) : ℚ := (round (q * 100) : ℤ) / 100

/-- `np.random.choice(a=[1,0], ...)` returns the element of `[1,0]` at the
drawn index. -/
def bonusVal (b : Fin 2) : ℕ := if b.val = 0 then 1 else 0

/-- Line 89: `seats_per_tier = total_seats/8` — Python true division (a
float); computed once and never read again anywhere in the script. -/
def seats_per_tier (cfg : Config) : ℚ := (cfg.totalSeats : ℚ) / 8

/-- Modelled from the spec (§3): `seatsPerTier = floor(seatCount / 8)`.
The script has no corresponding used quantity; this definition follows the
spec's words for comparison with the hard-coded quota of 125. -/
def seatsPerTierSpec (cfg : Config) : ℕ := cfg.totalSeats / 8

/-- Line 92: `tier_even = p = [.125]*8` (exact binary floats). -/
def tier_even : List ℚ := [1/8, 1/8, 1/8, 1/8, 1/8, 1/8, 1/8, 1/8]

/-- Line 95: `tier_skew = p = [0.09, 0.1, ..., 0.16]`, taken at their decimal
values. -/
def tier_skew : List ℚ :=
  [9/100, 10/100, 11/100, 12/100, 13/100, 14/100, 15/100, 16/100]

/-- The minimum grade: the literal `8` in `np.random.randint(8, GPA_max+1)`
(line 124), the same for both GPA scales. -/
def minGrade : ℕ := 8

/-- Lines 107-134, `make_data(tier_prob_dist, bonus_points=False)`: build the
`n_students`-row frame with tier, bonus flag, raw score, scaled score and
final score.  Draw outcomes come from the stream `s`; the probability-vector
argument only undergoes numpy's validation, modelled separately by
`make_data_checked`.  `scaled_score = round(raw_score * (100/GPA_max), 2)`;
`final_score = scaled_score + bonus * 10` when `bonus_points` else
`scaled_score + bonus * 0`. -/
def make_data (cfg : Config) (s : Streams) (bonus_points : Bool := false) : List Row :=
  (List.range cfg.nStudents).map (fun i =>
    let tier := (s.tier i).val + 1
    let bonus := bonusVal (s.bonusIdx i)
    let raw := minGrade + s.raw i % (cfg.gpaMax + 1 - minGrade)
    let scaled := round2 ((raw : ℚ) * (100 / (cfg.gpaMax : ℚ)))
    { keys := i, tier := tier, bonus := bonus, raw_score := raw,
      scaled_score := scaled,
      final_score := if bonus_points then scaled + (bonus : ℚ) * 10
                     else scaled + (bonus : ℚ) * 0 })

/-- The probability-vector validation numpy performs inside
`np.random.choice(np.arange(1, 9), p=p)` (the only validation the script
does): `p` must have the population's size (8), be non-negative, and have
`|kahan_sum(p) - 1| ≤ atol` with `atol = sqrt(float64 eps) = 2 ^ (-26)`;
the Kahan-compensated sum is modelled by the exact rational sum. -/
def np_choice_valid (p : List ℚ) : Bool :=
  (p.length == 8) && p.all (fun w => decide (0 ≤ w)) &&
    decide (|p.sum - 1| ≤ 1 / 2 ^ 26)

/-- `make_data` together with the `ValueError` that `np.random.choice` raises
on an invalid probability vector (`none` models the exception, which is fatal
to the run). -/
def make_data_checked (cfg : Config) (p : List ℚ) (s : Streams)
    (bonus_points : Bool := false) : Option (List Row) :=
  if np_choice_valid p then some (make_data cfg s bonus_points) else none

/-- Modelled from the spec (§4.1): `validate()` succeeds exactly when exactly
8 non-negative weights sum to within `1e-6` of 1.0.  For comparison with the
validation the code actually performs (`np_choice_valid`). -/
def validate_spec (p : List ℚ) : Bool :=
  (p.length == 8) && p.all (fun w => decide (0 ≤ w)) &&
    decide (|p.sum - 1| ≤ 1 / 1000000)

/-- Stable insertion parameterised by a `before` test: `insertBy before x l`
places `x` in front of the first element `y` of `l` with `before x y`. -/
def insertBy (before : α → α → Bool) (x : α) : List α → List α
  | [] => [x]
  | y :: ys => if before x y then x :: y :: ys else y :: insertBy before x ys

/-- Insertion sort with respect to a `before` test. -/
def sortBy (before : α → α → Bool) (l : List α) : List α :=
  l.foldr (insertBy before) []

/-- `sort_values('final_score', ascending=False)`: the rows ordered by final
score descending.  The script uses the pandas default (quicksort), whose
order among equal final scores is unspecified; the stable descending
insertion sort is the canonical representative used here.  No confirmed
claim depends on the order among equal final scores. -/
def sortDesc (rows : List Row) : List Row :=
  sortBy (fun r y => decide (y.final_score ≤ r.final_score)) rows

/-- Ascending sort on naturals (the sorted key order of a pandas `groupby`,
and the sorted union of indices when frames are aligned). -/
def sortAsc (l : List ℕ) : List ℕ := sortBy (fun a b => decide (a ≤ b)) l

/-- `df_input[df_input['tier'] == item]`: the rows of one tier. -/
def tier_rows (rows : List Row) (t : ℕ) : List Row :=
  rows.filter (fun r => r.tier == t)

/-- Line 183, `accepted_df = wrk_df.iloc[:125]`: the top 125 rows of the
tier sorted by final score descending — the quota is the literal 125. -/
def accepted_df (rows : List Row) (t : ℕ) : List Row :=
  (sortDesc (tier_rows rows t)).take 125

/-- Line 185, `rejected_df = wrk_df.iloc[125:]`. -/
def rejected_df (rows : List Row) (t : ℕ) : List Row :=
  (sortDesc (tier_rows rows t)).drop 125

/-- Lines 188-190: the A+ filter — `(raw_score > 10) & (bonus == 0)`, with
the threshold hard-coded to the literal 10 for either GPA scale. -/
def top_band_no_bonus (r : Row) : Bool :=
  decide (10 < r.raw_score) && decide (r.bonus = 0)

/-- Modelled from the spec (§4.5, §9): the top-band test parameterised as
`rawScore` strictly greater than the second-highest attainable grade
(`gpaMax - 1`), derived from the configured scale.  For comparison with the
hard-coded `top_band_no_bonus`. -/
def top_band_no_bonus_spec (gpaMax : ℕ) (r : Row) : Bool :=
  decide (gpaMax - 1 < r.raw_score) && decide (r.bonus = 0)

/-- Line 193: `round((rejected_num/(rejected_num + accepted_num))*100, 2)`.
With both counts 0, numpy produces `nan` (a warning, not an exception);
`none` models that missing value. -/
def reject_rate (rejected_num accepted_num : ℕ) : Option ℚ :=
  if rejected_num + accepted_num = 0 then none
  else some (round2 ((rejected_num : ℚ) /
    ((rejected_num : ℚ) + (accepted_num : ℚ)) * 100))

/-- Lines 181-195, one tier of one trial of `A_plus_rejected`: select the top
125, count A+ no-bonus rows in each part, and form the rejection rate. -/
def tier_reject_rate (rows : List Row) (t : ℕ) : Option ℚ :=
  reject_rate ((rejected_df rows t).filter top_band_no_bonus).length
    ((accepted_df rows t).filter top_band_no_bonus).length

/-- The spec-side variant of `tier_reject_rate` using the scale-derived
top-band threshold (`top_band_no_bonus_spec`) instead of the hard-coded 10. -/
def tier_reject_rate_spec (gpaMax : ℕ) (rows : List Row) (t : ℕ) : Option ℚ :=
  reject_rate ((rejected_df rows t).filter (top_band_no_bonus_spec gpaMax)).length
    ((accepted_df rows t).filter (top_band_no_bonus_spec gpaMax)).length

/-- Lines 162-203, `A_plus_rejected(dist_list, bonus_points=True)`: for each
of `n_trials` trials generate a pool and produce the 8 per-tier rejection
rates (`item in np.arange(1, 9)`). -/
def A_plus_rejected (cfg : Config) (streams : ℕ → Streams)
    (bonus_points : Bool := true) : List (List (Option ℚ)) :=
  (List.range cfg.nTrials).map (fun i =>
    (List.range 8).map (fun j =>
      tier_reject_rate (make_data cfg (streams i) bonus_points) (j + 1)))

/-- Line 153, `df_input['bonus'] = [0] * len(df_input)`: overwrite the bonus
column with zeros (after `final_score` was already computed). -/
def zero_bonus (r : Row) : Row := { r with bonus := 0 }

/-- Line 154: `df_input[df_input['final_score'] >= cutoff_score]
.groupby('tier')['raw_score'].agg('count')` — the count of qualifying rows
for each tier **present** among them, keyed and sorted by tier; tiers with no
qualifying row do not appear (pandas groupby drops empty groups). -/
def trial_counts (rows : List Row) (cutoff : ℚ) : List (ℕ × ℕ) :=
  (sortAsc ((rows.filter (fun r => decide (cutoff ≤ r.final_score))).map
      Row.tier).dedup).map
    (fun t => (t, ((rows.filter (fun r => decide (cutoff ≤ r.final_score))).filter
      (fun r => r.tier == t)).length))

/-- The number of applicants of tier `t` with `final_score ≥ cutoff` (the
count the spec says every tier's entry should report). -/
def countQual (rows : List Row) (cutoff : ℚ) (t : ℕ) : ℕ :=
  rows.countP (fun r => decide (cutoff ≤ r.final_score) && (r.tier == t))

/-- Lines 150-155 of `simulate_trials`: the per-trial groupby results, with
the bonus column zeroed first. -/
def simulate_trials_rows (cfg : Config) (streams : ℕ → Streams) (cutoff : ℚ)
    (bonus_points : Bool) : List (List (ℕ × ℕ)) :=
  (List.range cfg.nTrials).map (fun i =>
    trial_counts ((make_data cfg (streams i) bonus_points).map zero_bonus) cutoff)

/-- Lines 156-157: `pd.DataFrame(results_list)` aligns the per-trial series
on the sorted union of their tier keys, leaving `NaN` (`none`) where a trial
has no entry; `sim_df.columns = ['tier1', ..., 'tier8']` then requires the
union to have exactly 8 keys and raises `ValueError` (`none`) otherwise. -/
def assemble_df (results_list : List (List (ℕ × ℕ))) :
    Option (List (List (Option ℕ))) :=
  let cols := sortAsc ((results_list.map (fun s => s.map Prod.fst)).flatten).dedup
  if cols.length = 8 then
    some (results_list.map (fun s => cols.map (fun t => List.lookup t s)))
  else none

/-- Lines 138-158, `simulate_trials(input_func, dist_list, cutoff_score,
bonus_points=False)` with `input_func = make_data`. -/
def simulate_trials_df (cfg : Config) (streams : ℕ → Streams) (cutoff : ℚ)
    (bonus_points : Bool := false) : Option (List (List (Option ℕ))) :=
  assemble_df (simulate_trials_rows cfg streams cutoff bonus_points)

/-- The same pipeline counting `final_score ≥ cutoff` directly on the pools
exactly as generated, without the bonus-zeroing step — the comparison object
of the frame-effect claim. -/
def simulate_trials_direct_rows (cfg : Config) (streams : ℕ → Streams)
    (cutoff : ℚ) (bonus_points : Bool) : List (List (ℕ × ℕ)) :=
  (List.range cfg.nTrials).map (fun i =>
    trial_counts (make_data cfg (streams i) bonus_points) cutoff)

/-- `simulate_trials` without line 153 (no bonus-zeroing). -/
def simulate_trials_direct (cfg : Config) (streams : ℕ → Streams) (cutoff : ℚ)
    (bonus_points : Bool := false) : Option (List (List (Option ℕ))) :=
  assemble_df (simulate_trials_direct_rows cfg streams cutoff bonus_points)

/-- Line 240 applied per tier: `sort_values('final_score', ascending=False)
.groupby('tier').head(125)` — the top 125 rows of each tier, concatenated in
tier order. -/
def top125 (df : List Row) : List Row :=
  ((List.range 8).map (fun j => (sortDesc (tier_rows df (j + 1))).take 125)).flatten

/-- Lines 206-248, `count_applicants_tier_score(tier_type)`: first output is,
for each tier 1..8, the per-raw-score average applicant counts over the
`n_trials` concatenated pools (cells absent from a tier's groupby are `NaN` =
`none`; the column set is the sorted union of raw scores present) together
with the rounded average `total_applicants`; second output is the mean raw
score, per tier present, of the per-trial top-125-per-tier accepted rows. -/
def count_applicants_tier_score (cfg : Config) (streams : ℕ → Streams) :
    List (List (Option ℚ) × ℚ) × List (ℕ × ℚ) :=
  let list_to_agg := (List.range cfg.nTrials).map
    (fun i => make_data cfg (streams i) false)
  let new_df := list_to_agg.flatten
  let cols := sortAsc (new_df.map Row.raw_score).dedup
  let result := (List.range 8).map (fun j =>
    let wrk := new_df.filter (fun r => r.tier == j + 1)
    let cells := cols.map (fun s0 =>
      let c := (wrk.filter (fun r => r.raw_score == s0)).length
      if c = 0 then none else some (round2 ((c : ℚ) / (cfg.nTrials : ℚ))))
    let total := round2
      (((cols.map (fun s0 => (wrk.filter (fun r => r.raw_score == s0)).length)).sum : ℚ)
        / (cfg.nTrials : ℚ))
    (cells, total))
  let new_df_top := (list_to_agg.map top125).flatten
  let mean_score := (sortAsc (new_df_top.map Row.tier).dedup).map (fun t =>
    let grp := new_df_top.filter (fun r => r.tier == t)
    (t, (grp.map (fun r => (r.raw_score : ℚ))).sum / (grp.length : ℚ)))
  (result, mean_score)

/-- Matrix cell access: row `i`, column `j`, `none` when out of range. -/
def cellQ (m : List (List (Option ℚ))) (i j : ℕ) : Option ℚ :=
  ((m[i]?.getD [])[j]?).getD none

/-- Column `j` of a matrix of optional rationals. -/
def colCells (m : List (List (Option ℚ))) (j : ℕ) : List (Option ℚ) :=
  m.map (fun row => (row[j]?).getD none)

/-- The non-missing values of a column (what pandas aggregates, `skipna`). -/
def presentCells (cells : List (Option ℚ)) : List ℚ := cells.filterMap id

/-- Arithmetic mean of a sample, `none` on an empty one (pandas `mean` of
all-NaN is NaN). -/
def meanOf (l : List ℚ) : Option ℚ :=
  if l.length = 0 then none else some (l.sum / (l.length : ℚ))

/-- Sample variance (`ddof = 1`, the square of pandas `std`), `none` for
samples of size ≤ 1 (pandas `std` is NaN there). -/
def svarOf (l : List ℚ) : Option ℚ :=
  if l.length ≤ 1 then none
  else some (((l.map (fun x => (x - l.sum / (l.length : ℚ)) ^ 2)).sum) /
    ((l.length : ℚ) - 1))

/-- Line 458: `df.agg(['mean', 'std'])`, mean row — computed over the
non-missing cells of each tier column (pandas skips NaN). -/
def agg_mean (m : List (List (Option ℚ))) (j : ℕ) : Option ℚ :=
  meanOf (presentCells (colCells m j))

/-- Line 458: `df.agg(['mean', 'std'])`, std row, represented by its square,
the sample variance — computed over the non-missing cells. -/
def agg_svar (m : List (List (Option ℚ))) (j : ℕ) : Option ℚ :=
  svarOf (presentCells (colCells m j))

/-- A form-permitted configuration: 400 students, 1000 seats, 10 trials,
11-point scale. -/
def cfgA : Config := ⟨400, 1000, 10, 11⟩

/-- As `cfgA` but with 8 total seats (the form permits 3-1500). -/
def cfg8 : Config := ⟨400, 8, 10, 11⟩

/-- As `cfgA` but on the 12-point scale. -/
def cfg12 : Config := ⟨400, 1000, 10, 12⟩

/-- Draw outcomes sending every student to tier 1 with no bonus and raw
score 11 (`8 + 3 % 4`). -/
def sOne : Streams := ⟨fun _ => 0, fun _ => 1, fun _ => 3⟩

/-- Draw outcomes sending students 0 and 1 to tier 1 and the rest to tier 2,
no bonus, raw score 11. -/
def sTwo : Streams := ⟨fun i => if i < 2 then 0 else 1, fun _ => 1, fun _ => 3⟩

/-- Draw outcomes with a single tier-1 student (student 0), no bonus; raw
score 11 on the 12-point scale (`8 + 3 % 5`). -/
def sSolo : Streams := ⟨fun i => if i = 0 then 0 else 1, fun _ => 1, fun _ => 3⟩

/-- The constant trial family over `sOne`. -/
def sFamOne : ℕ → Streams := fun _ => sOne

/-- The constant trial family over `sTwo`. -/
def sFamTwo : ℕ → Streams := fun _ => sTwo

/-- The constant trial family over `sSolo`. -/
def sFamSolo : ℕ → Streams := fun _ => sSolo

/-- A probability vector summing to `1 + 2 ^ (-21)` (an exact binary float):
within the spec's `1e-6` tolerance but outside numpy's `2 ^ (-26)`. -/
def p_off : List ℚ :=
  [1/8 + 1/2 ^ 21, 1/8, 1/8, 1/8, 1/8, 1/8, 1/8, 1/8]

/-- A concrete A+ no-bonus row (raw score 11). -/
def rowX : Row := ⟨0, 1, 0, 11, 100, 100⟩

theorem insertBy_perm (before : α → α → Bool) (x : α) :
    ∀ l : List α, (insertBy before x l).Perm (x :: l)
  | [] => List.Perm.refl _
  | y :: ys => by
      unfold insertBy
      by_cases h : before x y = true
      · simp [h]
      · simp only [h, if_false]
        exact ((insertBy_perm before x ys).cons y).trans (List.Perm.swap x y ys)

theorem sortBy_perm (before : α → α → Bool) :
    ∀ l : List α, (sortBy before l).Perm l
  | [] => List.Perm.refl _
  | y :: ys => by
      show (insertBy before y (sortBy before ys)).Perm (y :: ys)
      exact (insertBy_perm before y _).trans ((sortBy_perm before ys).cons y)

theorem mem_insertBy (before : α → α → Bool) (x : α) (l : List α) (z : α) :
    z ∈ insertBy before x l ↔ z = x ∨ z ∈ l := by
  rw [(insertBy_perm before x l).mem_iff, List.mem_cons]

theorem insertBy_pairwise {R : α → α → Prop} (before : α → α → Bool)
    (h1 : ∀ a b, before a b = true → R a b)
    (h2 : ∀ a b, before a b = false → R b a)
    (htr : Transitive R) (x : α) :
    ∀ l : List α, l.Pairwise R → (insertBy before x l).Pairwise R
  | [], _ => List.pairwise_singleton R x
  | y :: ys, hp => by
      unfold insertBy
      obtain ⟨hy, hys⟩ := List.pairwise_cons.mp hp
      by_cases h : before x y = true
      · simp only [h, if_true]
        refine List.pairwise_cons.mpr ⟨?_, hp⟩
        intro z hz
        rcases List.mem_cons.mp hz with hzy | hz
        · rw [hzy]
          exact h1 x y h
        · exact htr (h1 x y h) (hy z hz)
      · simp only [h, if_false]
        refine List.pairwise_cons.mpr ⟨?_, insertBy_pairwise before h1 h2 htr x ys hys⟩
        intro z hz
        rcases (mem_insertBy before x ys z).mp hz with hzx | hz
        · rw [hzx]
          exact h2 x y (Bool.eq_false_iff.mpr h)
        · exact hy z hz

theorem sortBy_pairwise {R : α → α → Prop} (before : α → α → Bool)
    (h1 : ∀ a b, before a b = true → R a b)
    (h2 : ∀ a b, before a b = false → R b a)
    (htr : Transitive R) :
    ∀ l : List α, (sortBy before l).Pairwise R
  | [] => List.Pairwise.nil
  | y :: ys =>
      insertBy_pairwise before h1 h2 htr y (sortBy before ys)
        (sortBy_pairwise before h1 h2 htr ys)

theorem sortDesc_perm (rows : List Row) : (sortDesc rows).Perm rows :=
  sortBy_perm _ rows

theorem sortDesc_pairwise (rows : List Row) :
    (sortDesc rows).Pairwise (fun a b => b.final_score ≤ a.final_score) := by
  refine sortBy_pairwise _ ?_ ?_ ?_ rows
  · intro a b h
    exact of_decide_eq_true h
  · intro a b h
    exact le_of_lt (lt_of_not_le (of_decide_eq_false h))
  · intro a b c hab hbc
    exact le_trans hbc hab

theorem sortAsc_perm (l : List ℕ) : (sortAsc l).Perm l :=
  sortBy_perm _ l

theorem mem_sortAsc (l : List ℕ) (a : ℕ) : a ∈ sortAsc l ↔ a ∈ l :=
  (sortAsc_perm l).mem_iff

theorem make_data_nodup (cfg : Config) (s : Streams) (b : Bool) :
    (make_data cfg s b).Nodup := by
  refine List.Nodup.map ?_ (List.nodup_range _)
  intro i j hij
  exact congrArg Row.keys hij

theorem sorted_tier_nodup (cfg : Config) (s : Streams) (b : Bool) (t : ℕ) :
    (sortDesc (tier_rows (make_data cfg s b) t)).Nodup :=
  ((sortDesc_perm _).nodup_iff).mpr ((make_data_nodup cfg s b).filter _)

theorem selection_dominance (rows : List Row) (t : ℕ) :
    ∀ a ∈ accepted_df rows t, ∀ r ∈ rejected_df rows t,
      r.final_score ≤ a.final_score := by
  intro a ha r hr
  have hp := sortDesc_pairwise (tier_rows rows t)
  have hsplit : accepted_df rows t ++ rejected_df rows t
      = sortDesc (tier_rows rows t) := List.take_append_drop 125 _
  rw [← hsplit] at hp
  exact (List.pairwise_append.mp hp).2.2 a ha r hr

theorem selection_sizes (rows : List Row) (t : ℕ) :
    (accepted_df rows t).length + (rejected_df rows t).length
      = (tier_rows rows t).length := by
  unfold accepted_df rejected_df
  rw [← List.length_append, List.take_append_drop]
  exact (sortDesc_perm _).length_eq

/-- C8 (amended): for every generated applicant pool and tier, the selection
partitions the tier's population — accepted and rejected are disjoint, their
sizes sum to the tier population size, the accepted set has at most 125
members (the hard-coded quota of `iloc[:125]`, in place of the claimed
`seatsPerTier`), and every accepted applicant's final score is at least every
rejected applicant's final score. -/
theorem C8_selection_partition (cfg : Config) (s : Streams) (b : Bool) (t : ℕ) :
    (accepted_df (make_data cfg s b) t).length
        + (rejected_df (make_data cfg s b) t).length
      = (tier_rows (make_data cfg s b) t).length
    ∧ (accepted_df (make_data cfg s b) t).length ≤ 125
    ∧ List.Disjoint (accepted_df (make_data cfg s b) t)
        (rejected_df (make_data cfg s b) t)
    ∧ ((rejected_df (make_data cfg s b) t).all (fun r =>
        (accepted_df (make_data cfg s b) t).all (fun a =>
          decide (r.final_score ≤ a.final_score)))) = true := by
  refine ⟨selection_sizes _ t, List.length_take_le _ _, ?_, ?_⟩
  · exact List.disjoint_take_drop (sorted_tier_nodup cfg s b t) le_rfl
  · simp only [List.all_eq_true, decide_eq_true_eq]
    intro r hr a ha
    exact selection_dominance (make_data cfg s b) t a ha r hr

/-- C8 witness: the partition properties at a concrete form-permitted
configuration. -/
theorem C8_selection_partition_witness :
    (accepted_df (make_data cfgA sOne true) 1).length
        + (rejected_df (make_data cfgA sOne true) 1).length
      = (tier_rows (make_data cfgA sOne true) 1).length
    ∧ (accepted_df (make_data cfgA sOne true) 1).length ≤ 125
    ∧ List.Disjoint (accepted_df (make_data cfgA sOne true) 1)
        (rejected_df (make_data cfgA sOne true) 1)
    ∧ ((rejected_df (make_data cfgA sOne true) 1).all (fun r =>
        (accepted_df (make_data cfgA sOne true) 1).all (fun a =>
          decide (r.final_score ≤ a.final_score)))) = true :=
  C8_selection_partition cfgA sOne true 1

/-- C8 counterexample: with 8 total seats (`seatsPerTier = floor(8/8) = 1`,
form-permitted) and a pool whose tier 1 holds 2 applicants, the selection
accepts both — the accepted set exceeds `seatsPerTier`, refuting the claim
as stated. -/
theorem C8_counterexample :
    ¬ ((accepted_df (make_data cfg8 sTwo true) 1).length
        ≤ seatsPerTierSpec cfg8) := by with_unfolding_all decide

/-- C1: the spec's invariant `seatsPerTier = floor(seatCount/8)` is not what
the selection step uses.  At the form-permitted failing input — 8 total
seats, a pool whose tier 1 holds 2 applicants — `floor(seatCount/8) = 1`
(and the script's own unused `seats_per_tier` variable also equals 1), yet
the selection accepts both tier-1 applicants, because `A_plus_rejected`
takes `iloc[:125]` regardless of the seat count. -/
theorem C1_quota_is_hardcoded :
    seatsPerTierSpec cfg8 = 1 ∧ seats_per_tier cfg8 = 1
    ∧ (accepted_df (make_data cfg8 sTwo true) 1).length = 2 := by
  with_unfolding_all decide

/-- C5 counterexample: on the 12-point scale a raw-score-11 (second-highest
grade) no-bonus applicant is counted as top-band by the hard-coded
`raw_score > 10` test: with a pool whose tier 1 is exactly one such
applicant, the code computes rejection rate `0` while the scale-derived
threshold of the claim yields an undefined rate (`none`). -/
theorem C5_counterexample :
    tier_reject_rate (make_data cfg12 sSolo true) 1 = some 0
    ∧ tier_reject_rate_spec 12 (make_data cfg12 sSolo true) 1 = none := by
  with_unfolding_all decide

/-- C5 (amended): the top-band test is the hard-coded `raw_score > 10`,
which agrees with the spec's scale-derived rule exactly for the 11-point
scale: on every pool and tier the code's rejection rate coincides with the
scale-derived one for `gpaScale = 11`, and only applicants with
`bonusFlag = 0` (and `rawScore > 10`) ever enter the numerator or the
denominator counts. -/
theorem C5_threshold_amended :
    (∀ (rows : List Row) (t : ℕ),
      tier_reject_rate rows t = tier_reject_rate_spec 11 rows t)
    ∧ (∀ r : Row, top_band_no_bonus r = true → 10 < r.raw_score ∧ r.bonus = 0) := by
  constructor
  · intro rows t
    rfl
  · intro r h
    have h1 := (Bool.and_eq_true _ _).mp h
    exact ⟨of_decide_eq_true h1.1, of_decide_eq_true h1.2⟩

/-- C5 witness: the amended theorem applied to a concrete A+ no-bonus row. -/
theorem C5_threshold_amended_witness : 10 < rowX.raw_score ∧ rowX.bonus = 0 :=
  C5_threshold_amended.2 rowX (by decide)

theorem lookup_keyed (f : ℕ → ℕ) (t : ℕ) :
    ∀ keys : List ℕ, List.lookup t (keys.map (fun k => (k, f k)))
      = if t ∈ keys then some (f t) else none
  | [] => by simp [List.lookup]
  | k :: ks => by
      by_cases h : t = k
      · subst h
        simp [List.lookup]
      · have hbeq : (t == k) = false := beq_eq_false_iff_ne.mpr h
        simp [List.lookup, hbeq, lookup_keyed f t ks, List.mem_cons, h]

/-- C2 (amended): in each trial's cutoff-count result the entry of a tier is
present exactly when the tier has at least one qualifying applicant, in which
case its count equals the number of applicants of that tier with
`finalScore ≥ cutoff`; a tier with zero qualifying applicants is omitted
from the groupby result (giving a missing value, not 0, after the trial rows
are aligned). -/
theorem C2_cutoff_counts_amended (rows : List Row) (cutoff : ℚ) (t : ℕ) :
    List.lookup t (trial_counts rows cutoff)
      = if countQual rows cutoff t = 0 then none
        else some (countQual rows cutoff t) := by
  have hm : t ∈ sortAsc ((rows.filter
        (fun r => decide (cutoff ≤ r.final_score))).map Row.tier).dedup
      ↔ ¬ countQual rows cutoff t = 0 := by
    rw [mem_sortAsc, List.mem_dedup]
    unfold countQual
    constructor
    · intro ht h0
      rcases List.mem_map.mp ht with ⟨r, hr, hrt⟩
      have hrq : (decide (cutoff ≤ r.final_score) && (r.tier == t)) = true := by
        simp [(List.mem_filter.mp hr).2, hrt]
      have : 0 < rows.countP (fun r =>
          decide (cutoff ≤ r.final_score) && (r.tier == t)) :=
        List.countP_pos_iff.mpr ⟨r, (List.mem_filter.mp hr).1, hrq⟩
      omega
    · intro h0
      have : 0 < rows.countP (fun r =>
          decide (cutoff ≤ r.final_score) && (r.tier == t)) := by omega
      rcases List.countP_pos_iff.mp this with ⟨r, hr, hrq⟩
      rcases (Bool.and_eq_true _ _).mp hrq with ⟨hq, ht2⟩
      exact List.mem_map.mpr ⟨r, List.mem_filter.mpr ⟨hr, hq⟩, beq_iff_eq.mp ht2⟩
  have hf : ∀ k, ((rows.filter (fun r => decide (cutoff ≤ r.final_score))).filter
        (fun r => r.tier == k)).length = countQual rows cutoff k := by
    intro k
    unfold countQual
    rw [← List.countP_eq_length_filter, List.countP_filter]
    apply List.countP_congr
    intro a _
    rw [Bool.and_comm]
  unfold trial_counts
  rw [show (fun t => (t, ((rows.filter
        (fun r => decide (cutoff ≤ r.final_score))).filter
        (fun r => r.tier == t)).length))
      = (fun k => (k, countQual rows cutoff k)) from funext (fun k => by rw [hf k]),
    lookup_keyed (countQual rows cutoff) t]
  by_cases h0 : countQual rows cutoff t = 0
  · simp [h0, hm, if_neg]
  · simp [h0, hm.mpr h0]

/-- C2 witness: the amended count equation at a concrete pool and tier. -/
theorem C2_cutoff_counts_amended_witness :
    List.lookup 3 (trial_counts ((make_data cfgA sOne false).map zero_bonus) 90)
      = if countQual ((make_data cfgA sOne false).map zero_bonus) 90 3 = 0 then none
        else some (countQual ((make_data cfgA sOne false).map zero_bonus) 90 3) :=
  C2_cutoff_counts_amended ((make_data cfgA sOne false).map zero_bonus) 90 3

/-- C2 counterexample: a generated pool in which every applicant is in tier 1
and qualifies at cutoff 90 — the trial's result row is `[(1, 400)]`: tiers
2..8 have no entry at all (looking tier 2 up yields nothing), instead of the
claimed entry with count 0. -/
theorem C2_counterexample :
    trial_counts ((make_data cfgA sOne false).map zero_bonus) 90 = [(1, 400)]
    ∧ List.lookup 2 (trial_counts ((make_data cfgA sOne false).map zero_bonus) 90)
        = none := by
  with_unfolding_all decide

theorem filter_map_comm (f : α → β) (p : β → Bool) (l : List α) :
    (l.map f).filter p = (l.filter (fun a => p (f a))).map f := by
  induction l with
  | nil => rfl
  | cons x xs ih =>
      by_cases h : p (f x) = true <;>
        simp [List.filter_cons, List.map_cons, h, ih]

theorem zero_bonus_final (r : Row) : (zero_bonus r).final_score = r.final_score := rfl

theorem zero_bonus_tier (r : Row) : (zero_bonus r).tier = r.tier := rfl

theorem trial_counts_zero_bonus (rows : List Row) (cutoff : ℚ) :
    trial_counts (rows.map zero_bonus) cutoff = trial_counts rows cutoff := by
  unfold trial_counts
  rw [filter_map_comm]
  simp only [zero_bonus_final, List.map_map]
  rw [show (Row.tier ∘ zero_bonus) = Row.tier from funext zero_bonus_tier]
  have hlen : ∀ t : ℕ,
      (((rows.filter (fun r => decide (cutoff ≤ r.final_score))).map zero_bonus).filter
        (fun r => r.tier == t)).length
      = ((rows.filter (fun r => decide (cutoff ≤ r.final_score))).filter
        (fun r => r.tier == t)).length := by
    intro t
    rw [filter_map_comm, List.length_map]
    simp only [zero_bonus_tier]
  exact List.map_congr_left (fun t _ => by rw [hlen t])

/-- C9: overwriting every applicant's bonus flag with 0 after the population
is generated (line 153) does not change the per-trial cutoff counts or the
assembled matrix: `final_score` was computed at generation time, so the
result equals counting `finalScore ≥ cutoff` directly on the pools as
generated, for either setting of `bonus_points`. -/
theorem C9_bonus_overwrite_no_effect (cfg : Config) (streams : ℕ → Streams)
    (cutoff : ℚ) (bonus_points : Bool) :
    simulate_trials_df cfg streams cutoff bonus_points
      = simulate_trials_direct cfg streams cutoff bonus_points
    ∧ simulate_trials_rows cfg streams cutoff bonus_points
      = simulate_trials_direct_rows cfg streams cutoff bonus_points := by
  have hrows : simulate_trials_rows cfg streams cutoff bonus_points
      = simulate_trials_direct_rows cfg streams cutoff bonus_points := by
    unfold simulate_trials_rows simulate_trials_direct_rows
    exact List.map_congr_left (fun i _ => trial_counts_zero_bonus _ cutoff)
  exact ⟨congrArg assemble_df hrows, hrows⟩

/-- C9 witness: the frame equation at a concrete configuration with bonus
points enabled. -/
theorem C9_bonus_overwrite_no_effect_witness :
    simulate_trials_df cfgA sFamOne 90 true
      = simulate_trials_direct cfgA sFamOne 90 true
    ∧ simulate_trials_rows cfgA sFamOne 90 true
      = simulate_trials_direct_rows cfgA sFamOne 90 true :=
  C9_bonus_overwrite_no_effect cfgA sFamOne 90 true

theorem np_choice_valid_iff (p : List ℚ) :
    np_choice_valid p = true
      ↔ (p.length = 8 ∧ (∀ w ∈ p, 0 ≤ w) ∧ |p.sum - 1| ≤ 1 / 2 ^ 26) := by
  unfold np_choice_valid
  simp [List.all_eq_true, and_assoc]

/-- C4 (amended): the only validation of a supplied tier distribution happens
inside each trial's population generation, by numpy: generation succeeds
exactly when the distribution consists of exactly 8 non-negative weights
whose sum is within `2 ^ (-26)` (numpy's `sqrt(eps)`, about `1.49e-8` — not
`1e-6`) of 1.0; otherwise `np.random.choice` raises `ValueError` (not a
`ConfigurationError`, and inside the first trial rather than before it). -/
theorem C4_validation_amended (cfg : Config) (p : List ℚ) (s : Streams) (b : Bool) :
    (make_data_checked cfg p s b).isSome = true
      ↔ (p.length = 8 ∧ (∀ w ∈ p, 0 ≤ w) ∧ |p.sum - 1| ≤ 1 / 2 ^ 26) := by
  rw [← np_choice_valid_iff]
  unfold make_data_checked
  split
  · next h => simp [h]
  · next h => simp [h]

/-- C4 witness: the amended validation equivalence at the even
distribution. -/
theorem C4_validation_amended_witness :
    (make_data_checked cfgA tier_even sOne false).isSome = true
      ↔ (tier_even.length = 8 ∧ (∀ w ∈ tier_even, 0 ≤ w)
          ∧ |tier_even.sum - 1| ≤ 1 / 2 ^ 26) :=
  C4_validation_amended cfgA tier_even sOne false

/-- C4 counterexample: `p_off` sums to `1 + 2 ^ (-21)`, within the spec's
`1e-6` tolerance (so the claim demands it be accepted and trials run), yet
the code rejects it: numpy's check fails and generation raises. -/
theorem C4_counterexample :
    validate_spec p_off = true ∧ np_choice_valid p_off = false
    ∧ make_data_checked cfgA p_off sOne false = none := by
  with_unfolding_all decide

/-- C10: two runs differing only in the configured total seat count but
drawing the same random populations produce identical rejection-rate
matrices and identical `count_applicants_tier_score` outputs — the seat
count never influences selection, which always takes the top 125 per
tier. -/
theorem C10_seat_count_no_influence (cfg1 cfg2 : Config) (streams : ℕ → Streams)
    (b : Bool) (h1 : cfg1.nStudents = cfg2.nStudents)
    (h2 : cfg1.nTrials = cfg2.nTrials) (h3 : cfg1.gpaMax = cfg2.gpaMax) :
    A_plus_rejected cfg1 streams b = A_plus_rejected cfg2 streams b
    ∧ count_applicants_tier_score cfg1 streams
        = count_applicants_tier_score cfg2 streams := by
  obtain ⟨n1, st1, tr1, g1⟩ := cfg1
  obtain ⟨n2, st2, tr2, g2⟩ := cfg2
  have e1 : n1 = n2 := h1
  have e2 : tr1 = tr2 := h2
  have e3 : g1 = g2 := h3
  subst e1
  subst e2
  subst e3
  exact ⟨rfl, rfl⟩

/-- C10 witness: 8 seats versus 1000 seats, same draws, identical outputs. -/
theorem C10_seat_count_no_influence_witness :
    cfg8.nStudents = cfgA.nStudents ∧ cfg8.nTrials = cfgA.nTrials
    ∧ cfg8.gpaMax = cfgA.gpaMax
    ∧ A_plus_rejected cfg8 sFamTwo true = A_plus_rejected cfgA sFamTwo true
    ∧ count_applicants_tier_score cfg8 sFamTwo
        = count_applicants_tier_score cfgA sFamTwo := by
  refine ⟨rfl, rfl, rfl, ?_⟩
  exact C10_seat_count_no_influence cfg8 cfgA sFamTwo true rfl rfl rfl

/-- C6: every generated applicant's tier lies in {1..8}; the raw score is the
uniform integer draw over the inclusive grade range `[minGrade, gpaMax]`
determined by the configured scale — the draw map sends the uniform residue
classes bijectively onto exactly that range — with the minimum grade floor a
fixed constant in {7, 8} (it is 8, for both scale variants, via the single
`make_data` code path). -/
theorem C6_population_bounds (cfg : Config) (s : Streams) (b : Bool)
    (hg : cfg.gpaMax = 11 ∨ cfg.gpaMax = 12) :
    (∀ r ∈ make_data cfg s b,
        (1 ≤ r.tier ∧ r.tier ≤ 8)
        ∧ (minGrade ≤ r.raw_score ∧ r.raw_score ≤ cfg.gpaMax))
    ∧ (minGrade = 7 ∨ minGrade = 8)
    ∧ (∀ v : ℕ, (∃ u : ℕ, minGrade + u % (cfg.gpaMax + 1 - minGrade) = v)
        ↔ (minGrade ≤ v ∧ v ≤ cfg.gpaMax))
    ∧ (∀ u1 u2 : ℕ, u1 < cfg.gpaMax + 1 - minGrade → u2 < cfg.gpaMax + 1 - minGrade
        → minGrade + u1 = minGrade + u2 → u1 = u2) := by
  have hm : 8 ≤ cfg.gpaMax := by rcases hg with h | h <;> omega
  have hmg : minGrade = 8 := rfl
  refine ⟨?_, Or.inr rfl, ?_, ?_⟩
  · intro r hr
    unfold make_data at hr
    rcases List.mem_map.mp hr with ⟨i, _, hri⟩
    have hlt := (s.tier i).isLt
    have hmod : s.raw i % (cfg.gpaMax + 1 - minGrade) < cfg.gpaMax + 1 - minGrade :=
      Nat.mod_lt _ (by omega)
    refine ⟨⟨?_, ?_⟩, ?_, ?_⟩
    · rw [← hri]
      show 1 ≤ (s.tier i).val + 1
      omega
    · rw [← hri]
      show (s.tier i).val + 1 ≤ 8
      omega
    · rw [← hri]
      show minGrade ≤ minGrade + s.raw i % (cfg.gpaMax + 1 - minGrade)
      omega
    · rw [← hri]
      show minGrade + s.raw i % (cfg.gpaMax + 1 - minGrade) ≤ cfg.gpaMax
      omega
  · intro v
    constructor
    · rintro ⟨u, rfl⟩
      have hmod : u % (cfg.gpaMax + 1 - minGrade) < cfg.gpaMax + 1 - minGrade :=
        Nat.mod_lt _ (by omega)
      omega
    · rintro ⟨hv1, hv2⟩
      refine ⟨v - minGrade, ?_⟩
      rw [Nat.mod_eq_of_lt (by omega)]
      omega
  · intro u1 u2 _ _ h
    omega

/-- C6 witness: the population bounds at a concrete configuration on the
11-point scale. -/
theorem C6_population_bounds_witness :
    (cfgA.gpaMax = 11 ∨ cfgA.gpaMax = 12)
    ∧ ((∀ r ∈ make_data cfgA sOne false,
        (1 ≤ r.tier ∧ r.tier ≤ 8)
        ∧ (minGrade ≤ r.raw_score ∧ r.raw_score ≤ cfgA.gpaMax))
    ∧ (minGrade = 7 ∨ minGrade = 8)
    ∧ (∀ v : ℕ, (∃ u : ℕ, minGrade + u % (cfgA.gpaMax + 1 - minGrade) = v)
        ↔ (minGrade ≤ v ∧ v ≤ cfgA.gpaMax))
    ∧ (∀ u1 u2 : ℕ, u1 < cfgA.gpaMax + 1 - minGrade → u2 < cfgA.gpaMax + 1 - minGrade
        → minGrade + u1 = minGrade + u2 → u1 = u2)) :=
  ⟨Or.inl rfl, C6_population_bounds cfgA sOne false (Or.inl rfl)⟩

theorem tier_reject_rate_eq_none_iff (rows : List Row) (t : ℕ) :
    tier_reject_rate rows t = none
      ↔ (tier_rows rows t).countP top_band_no_bonus = 0 := by
  have hsplit : ((rejected_df rows t).filter top_band_no_bonus).length
      + ((accepted_df rows t).filter top_band_no_bonus).length
      = (tier_rows rows t).countP top_band_no_bonus := by
    rw [← List.countP_eq_length_filter, ← List.countP_eq_length_filter, Nat.add_comm]
    unfold accepted_df rejected_df
    rw [← List.countP_append, List.take_append_drop]
    exact (sortDesc_perm (tier_rows rows t)).countP_eq _
  unfold tier_reject_rate reject_rate
  rw [← hsplit]
  split
  · next h => simp [h]
  · next h => simp [h]

theorem cellQ_A_plus (cfg : Config) (streams : ℕ → Streams) (b : Bool)
    (i j : ℕ) (hi : i < cfg.nTrials) (hj : j < 8) :
    cellQ (A_plus_rejected cfg streams b) i j
      = tier_reject_rate (make_data cfg (streams i) b) (j + 1) := by
  unfold cellQ A_plus_rejected
  simp [List.getElem?_map, List.getElem?_range, hi, hj]

theorem colCells_A_plus (cfg : Config) (streams : ℕ → Streams) (b : Bool)
    (j : ℕ) (hj : j < 8) :
    colCells (A_plus_rejected cfg streams b) j
      = (List.range cfg.nTrials).map
          (fun i => tier_reject_rate (make_data cfg (streams i) b) (j + 1)) := by
  unfold colCells A_plus_rejected
  rw [List.map_map]
  apply List.map_congr_left
  intro i _
  simp [List.getElem?_map, List.getElem?_range, hj]

theorem length_filterMap_eq_countP (f : α → Option β) (l : List α) :
    (l.filterMap f).length = l.countP (fun a => (f a).isSome) := by
  induction l with
  | nil => rfl
  | cons x xs ih =>
      cases hfx : f x <;> simp [List.filterMap_cons, hfx, List.countP_cons, ih]

theorem filterMap_id_map (f : α → Option β) (l : List α) :
    (l.map f).filterMap id = l.filterMap f := by
  induction l with
  | nil => rfl
  | cons x xs ih => cases hfx : f x <;> simp [hfx, ih]

/-- C3: for every trial and tier without a top-band no-bonus applicant (the
rejection-rate denominator is 0) the matrix cell is the missing value `none`
— and exactly then, so it is never `some 0` there and no exception arises
(the computation is total) — while the cross-trial mean and variance for a
tier are computed only over the non-missing cells: the number of samples
they aggregate equals the number of trials whose tier does contain a
top-band no-bonus applicant. -/
theorem C3_missing_rate (cfg : Config) (streams : ℕ → Streams) (b : Bool)
    (i j : ℕ) (hi : i < cfg.nTrials) (hj : j < 8) :
    (cellQ (A_plus_rejected cfg streams b) i j = none
      ↔ (tier_rows (make_data cfg (streams i) b) (j + 1)).countP
          top_band_no_bonus = 0)
    ∧ agg_mean (A_plus_rejected cfg streams b) j
        = meanOf (presentCells (colCells (A_plus_rejected cfg streams b) j))
    ∧ agg_svar (A_plus_rejected cfg streams b) j
        = svarOf (presentCells (colCells (A_plus_rejected cfg streams b) j))
    ∧ (presentCells (colCells (A_plus_rejected cfg streams b) j)).length
        = ((List.range cfg.nTrials).filter (fun i2 =>
            decide (0 < (tier_rows (make_data cfg (streams i2) b) (j + 1)).countP
              top_band_no_bonus))).length := by
  refine ⟨?_, rfl, rfl, ?_⟩
  · rw [cellQ_A_plus cfg streams b i j hi hj]
    exact tier_reject_rate_eq_none_iff _ _
  · rw [colCells_A_plus cfg streams b j hj]
    unfold presentCells
    rw [filterMap_id_map, length_filterMap_eq_countP, List.countP_eq_length_filter]
    have hpt : ∀ i2 ∈ List.range cfg.nTrials,
        (tier_reject_rate (make_data cfg (streams i2) b) (j + 1)).isSome
          = decide (0 < (tier_rows (make_data cfg (streams i2) b) (j + 1)).countP
              top_band_no_bonus) := by
      intro i2 _
      by_cases h0 : (tier_rows (make_data cfg (streams i2) b) (j + 1)).countP
          top_band_no_bonus = 0
      · rw [(tier_reject_rate_eq_none_iff _ _).mpr h0, h0]
        simp
      · have hne : tier_reject_rate (make_data cfg (streams i2) b) (j + 1) ≠ none :=
          fun hn => h0 ((tier_reject_rate_eq_none_iff _ _).mp hn)
        rw [Option.isSome_iff_ne_none.mpr hne,
          decide_eq_true (Nat.pos_of_ne_zero h0)]
    rw [List.filter_congr hpt]

/-- C3 witness: the missing-value and aggregation facts at a concrete
configuration, trial 0, tier 1. -/
theorem C3_missing_rate_witness :
    (0 < cfgA.nTrials) ∧ (0 < 8)
    ∧ ((cellQ (A_plus_rejected cfgA sFamOne true) 0 0 = none
      ↔ (tier_rows (make_data cfgA (sFamOne 0) true) (0 + 1)).countP
          top_band_no_bonus = 0)
    ∧ agg_mean (A_plus_rejected cfgA sFamOne true) 0
        = meanOf (presentCells (colCells (A_plus_rejected cfgA sFamOne true) 0))
    ∧ agg_svar (A_plus_rejected cfgA sFamOne true) 0
        = svarOf (presentCells (colCells (A_plus_rejected cfgA sFamOne true) 0))
    ∧ (presentCells (colCells (A_plus_rejected cfgA sFamOne true) 0)).length
        = ((List.range cfgA.nTrials).filter (fun i2 =>
            decide (0 < (tier_rows (make_data cfgA (sFamOne i2) true) (0 + 1)).countP
              top_band_no_bonus))).length) :=
  ⟨by decide, by decide, C3_missing_rate cfgA sFamOne true 0 0 (by decide) (by decide)⟩
